import Mathlib

/-!
Verification of the Mergington High School activities API (src/app.py).

The store is embedded as a list of activity documents, in insertion order.
MongoDB operations used by the handlers are embedded over that list:
`find_one {'name': n}` returns the first document whose name matches;
`update_one({'name': n}, {'$push': ...})` appends to the participants list
of the first matching document and reports how many documents it modified;
`update_one({'name': n}, {'$pull': ...})` removes every occurrence of the
given email from the participants list of the first matching document and
reports a modified count of 1 exactly when the document actually changed.
Handlers return an HTTP response (`Except HTTPException String`) together
with the post-state of the store (writes happen before the final
modified-count check, so the 500 branch still returns the written store).
-/

/-- An activity document as stored in the `activities` collection.
`oid` embeds the internal storage identifier (Mongo `_id`), attached by
the store at insertion time; the remaining fields are from `init_db.py`. -/
structure ActivityDoc where
  oid : Nat
  name : String
  description : String
  schedule : String
  max_participants : Nat
  participants : List String
deriving DecidableEq

/-- The `activities` collection: documents in insertion order. -/
abbrev Store := List ActivityDoc

/-- The fields of an activity exposed by the listing endpoint after the
internal storage identifier is projected out and the name is popped
to serve as the mapping key. -/
structure ActivityDetails where
  description : String
  schedule : String
  max_participants : Nat
  participants : List String
deriving DecidableEq

/-- `collection.find_one({'name': activity_name})`: first document whose
`name` equals the given string, if any. -/
def find_one (store : Store) (activity_name : String) : Option ActivityDoc :=
  match store with
  | [] => none
  | a :: rest => if a.name = activity_name then some a else find_one rest activity_name

/-- `update_one({'name': n}, {'$push': {'participants': email}})`:
append `email` to the participants of the first document named `n`.
Returns the new store and the reported `modified_count` (a push always
changes the matched document, so the count is 1 when a match exists). -/
def update_one_push (store : Store) (activity_name email : String) : Store × Nat :=
  match store with
  | [] => ([], 0)
  | a :: rest =>
    if a.name = activity_name then
      ({ a with participants := a.participants ++ [email] } :: rest, 1)
    else
      let r := update_one_push rest activity_name email
      (a :: r.1, r.2)

/-- `update_one({'name': n}, {'$pull': {'participants': email}})`:
remove every occurrence of `email` from the participants of the first
document named `n`. The reported `modified_count` is 1 exactly when the
matched document actually changed, i.e. when `email` occurred in it. -/
def update_one_pull (store : Store) (activity_name email : String) : Store × Nat :=
  match store with
  | [] => ([], 0)
  | a :: rest =>
    if a.name = activity_name then
      ({ a with participants := a.participants.filter (fun p => p != email) } :: rest,
       if email ∈ a.participants then 1 else 0)
    else
      let r := update_one_pull rest activity_name email
      (a :: r.1, r.2)

/-- An HTTP error response, as raised by `raise HTTPException(...)`. -/
structure HTTPException where
  status_code : Nat
  detail : String
deriving DecidableEq

/-- `HTTPException(status_code=404, detail="Activity not found")`. -/
def activityNotFound : HTTPException := ⟨404, "Activity not found"⟩

/-- `HTTPException(status_code=400, detail="Student already signed up")`. -/
def alreadySignedUp : HTTPException := ⟨400, "Student already signed up"⟩

/-- `HTTPException(status_code=400, detail="Student is not registered for this activity")`. -/
def notRegistered : HTTPException := ⟨400, "Student is not registered for this activity"⟩

/-- `HTTPException(status_code=500, detail="Failed to sign up student")`. -/
def signupFailed : HTTPException := ⟨500, "Failed to sign up student"⟩

/-- `HTTPException(status_code=500, detail="Failed to remove student")`. -/
def removeFailed : HTTPException := ⟨500, "Failed to remove student"⟩

/-- The final step of `signup_for_activity`: given the `modified_count`
reported by the persisted update, return the confirmation when it is 1
and the 500 error otherwise. -/
def signup_commit (activity_name email : String) (modified_count : Nat) :
    Except HTTPException String :=
  if modified_count = 1 then
    Except.ok ("Signed up " ++ email ++ " for " ++ activity_name)
  else
    Except.error signupFailed

/-- The final step of `unregister_from_activity`: given the `modified_count`
reported by the persisted update, return the confirmation when it is 1
and the 500 error otherwise. -/
def unregister_commit (activity_name email : String) (modified_count : Nat) :
    Except HTTPException String :=
  if modified_count = 1 then
    Except.ok ("Removed " ++ email ++ " from " ++ activity_name)
  else
    Except.error removeFailed

/-- `POST /activities/{activity_name}/signup`: fetch the activity,
404 if absent, 400 if the email is already a participant, otherwise
push the email and answer according to the reported modified count.
Returns the response together with the store after the handler ran. -/
def signup_for_activity (store : Store) (activity_name email : String) :
    Except HTTPException String × Store :=
  match find_one store activity_name with
  | none => (Except.error activityNotFound, store)
  | some activity =>
    if email ∈ activity.participants then
      (Except.error alreadySignedUp, store)
    else
      let r := update_one_push store activity_name email
      (signup_commit activity_name email r.2, r.1)

/-- `POST /activities/{activity_name}/unregister`: fetch the activity,
404 if absent, 400 if the email is not a participant, otherwise
pull the email and answer according to the reported modified count.
Returns the response together with the store after the handler ran. -/
def unregister_from_activity (store : Store) (activity_name email : String) :
    Except HTTPException String × Store :=
  match find_one store activity_name with
  | none => (Except.error activityNotFound, store)
  | some activity =>
    if email ∈ activity.participants then
      let r := update_one_pull store activity_name email
      (unregister_commit activity_name email r.2, r.1)
    else
      (Except.error notRegistered, store)

/-- Projection of a document to the fields returned by the listing
endpoint (everything except `oid` and the `name` used as key). -/
def stripId (a : ActivityDoc) : ActivityDetails :=
  ⟨a.description, a.schedule, a.max_participants, a.participants⟩

/-- `GET /activities`: all documents with `_id` projected out, as a
mapping from activity name to the remaining fields. -/
def get_activities (store : Store) : List (String × ActivityDetails) :=
  store.map (fun a => (a.name, stripId a))

/-- The three public operations, for stating state-evolution properties. -/
inductive Op where
  | listing : Op
  | signup : String → String → Op
  | unregister : String → String → Op

/-- Effect of one operation on the store. `GET /activities` only reads. -/
def applyOp (store : Store) : Op → Store
  | Op.listing => store
  | Op.signup n e => (signup_for_activity store n e).2
  | Op.unregister n e => (unregister_from_activity store n e).2

/-- The no-duplicates invariant: within each activity document of the
store, no email appears twice in the participants list. -/
def NoDupInv (store : Store) : Prop :=
  ∀ a ∈ store, a.participants.Nodup

instance : DecidablePred NoDupInv := fun s =>
  inferInstanceAs (Decidable (∀ a ∈ s, a.participants.Nodup))

/-- The seed data of `init_db.py`, with `oid` recording insertion order. -/
def initialActivities : Store :=
  [ ⟨0, "Chess Club", "Learn strategies and compete in chess tournaments",
     "Fridays, 3:30 PM - 5:00 PM", 12,
     ["michael@mergington.edu", "daniel@mergington.edu"]⟩,
    ⟨1, "Programming Class", "Learn programming fundamentals and build software projects",
     "Tuesdays and Thursdays, 3:30 PM - 4:30 PM", 20,
     ["emma@mergington.edu", "sophia@mergington.edu"]⟩,
    ⟨2, "Gym Class", "Physical education and sports activities",
     "Mondays, Wednesdays, Fridays, 2:00 PM - 3:00 PM", 30,
     ["john@mergington.edu", "olivia@mergington.edu"]⟩,
    ⟨3, "Soccer Team", "Join the school soccer team and compete in local leagues",
     "Tuesdays and Thursdays, 4:00 PM - 5:30 PM", 18,
     ["lucas@mergington.edu", "mia@mergington.edu"]⟩,
    ⟨4, "Basketball Club", "Practice basketball skills and play friendly matches",
     "Wednesdays, 3:30 PM - 5:00 PM", 15,
     ["liam@mergington.edu", "ava@mergington.edu"]⟩,
    ⟨5, "Drama Club", "Participate in school plays and improve acting skills",
     "Mondays, 4:00 PM - 5:30 PM", 20,
     ["noah@mergington.edu", "isabella@mergington.edu"]⟩,
    ⟨6, "Art Workshop", "Explore painting, drawing, and other visual arts",
     "Thursdays, 3:30 PM - 5:00 PM", 16,
     ["amelia@mergington.edu", "benjamin@mergington.edu"]⟩,
    ⟨7, "Math Olympiad", "Prepare for math competitions and solve challenging problems",
     "Fridays, 2:00 PM - 3:30 PM", 10,
     ["charlotte@mergington.edu", "jack@mergington.edu"]⟩,
    ⟨8, "Science Club", "Conduct experiments and explore scientific concepts",
     "Wednesdays, 4:00 PM - 5:00 PM", 14,
     ["harper@mergington.edu", "elijah@mergington.edu"]⟩ ]

/-- A one-activity store whose participant list violates the
no-duplicates invariant, for probing `$pull` behaviour. -/
def dupStore : Store :=
  [⟨0, "Chess Club", "d", "sch", 12, ["x@mergington.edu", "x@mergington.edu"]⟩]

/-- A one-activity store whose participant list already holds as many
emails as `max_participants` allows, for probing capacity enforcement. -/
def fullStore : Store :=
  [⟨0, "Chess Club", "d", "sch", 2, ["a@mergington.edu", "b@mergington.edu"]⟩]

/-- Frame relation between a pre-state and a post-state of the store with
respect to one activity name: the stores have the same documents position
by position, each keeping its name, description, schedule,
max_participants and storage identifier, and every document whose name is
not the targeted one entirely unchanged. -/
def FrameOK (activity_name : String) (s s' : Store) : Prop :=
  List.Forall₂
    (fun d d' =>
      d'.name = d.name ∧ d'.description = d.description ∧
      d'.schedule = d.schedule ∧ d'.max_participants = d.max_participants ∧
      d'.oid = d.oid ∧ (d.name ≠ activity_name → d' = d))
    s s'

/-! ## Helper lemmas about the embedded store operations -/

theorem push_spec (s : Store) (n e : String) (a : ActivityDoc)
    (hf : find_one s n = some a) :
    (update_one_push s n e).2 = 1 ∧
    find_one (update_one_push s n e).1 n =
      some { a with participants := a.participants ++ [e] } := by
  induction s with
  | nil => simp [find_one] at hf
  | cons b rest ih =>
    by_cases hb : b.name = n
    · rw [find_one, if_pos hb] at hf
      obtain rfl := Option.some.inj hf
      simp [update_one_push, hb, find_one]
    · rw [find_one, if_neg hb] at hf
      have h := ih hf
      simp only [update_one_push, if_neg hb]
      exact ⟨h.1, by rw [find_one, if_neg hb]; exact h.2⟩

theorem pull_spec (s : Store) (n e : String) (a : ActivityDoc)
    (hf : find_one s n = some a) :
    (update_one_pull s n e).2 = (if e ∈ a.participants then 1 else 0) ∧
    find_one (update_one_pull s n e).1 n =
      some { a with participants := a.participants.filter (fun p => p != e) } := by
  induction s with
  | nil => simp [find_one] at hf
  | cons b rest ih =>
    by_cases hb : b.name = n
    · rw [find_one, if_pos hb] at hf
      obtain rfl := Option.some.inj hf
      simp [update_one_pull, hb, find_one]
    · rw [find_one, if_neg hb] at hf
      have h := ih hf
      simp only [update_one_pull, if_neg hb]
      exact ⟨h.1, by rw [find_one, if_neg hb]; exact h.2⟩

theorem pull_push_cancel (s : Store) (n e : String) (a : ActivityDoc)
    (hf : find_one s n = some a) (he : e ∉ a.participants) :
    (update_one_pull (update_one_push s n e).1 n e).1 = s := by
  induction s with
  | nil => simp [find_one] at hf
  | cons b rest ih =>
    by_cases hb : b.name = n
    · rw [find_one, if_pos hb] at hf
      obtain rfl := Option.some.inj hf
      have hfilter : b.participants.filter (fun p => p != e) = b.participants :=
        List.filter_eq_self.mpr (fun x hx => by
          simp only [bne_iff_ne, ne_eq, decide_eq_true_eq]
          exact fun hxe => he (hxe ▸ hx))
      simp [update_one_push, if_pos hb, update_one_pull, List.filter_append, hfilter]
    · rw [find_one, if_neg hb] at hf
      simp [update_one_push, if_neg hb, update_one_pull, ih hf]

theorem frameOK_refl (n : String) (s : Store) : FrameOK n s s := by
  induction s with
  | nil => exact List.Forall₂.nil
  | cons a rest ih =>
    exact List.Forall₂.cons ⟨rfl, rfl, rfl, rfl, rfl, fun _ => rfl⟩ ih

theorem frameOK_push (s : Store) (n e : String) :
    FrameOK n s (update_one_push s n e).1 := by
  induction s with
  | nil => exact List.Forall₂.nil
  | cons a rest ih =>
    by_cases hb : a.name = n
    · simp only [update_one_push, if_pos hb]
      exact List.Forall₂.cons ⟨rfl, rfl, rfl, rfl, rfl, fun hn => absurd hb hn⟩
        (frameOK_refl n rest)
    · simp only [update_one_push, if_neg hb]
      exact List.Forall₂.cons ⟨rfl, rfl, rfl, rfl, rfl, fun _ => rfl⟩ ih

theorem frameOK_pull (s : Store) (n e : String) :
    FrameOK n s (update_one_pull s n e).1 := by
  induction s with
  | nil => exact List.Forall₂.nil
  | cons a rest ih =>
    by_cases hb : a.name = n
    · simp only [update_one_pull, if_pos hb]
      exact List.Forall₂.cons ⟨rfl, rfl, rfl, rfl, rfl, fun hn => absurd hb hn⟩
        (frameOK_refl n rest)
    · simp only [update_one_pull, if_neg hb]
      exact List.Forall₂.cons ⟨rfl, rfl, rfl, rfl, rfl, fun _ => rfl⟩ ih

theorem noDupInv_push (s : Store) (n e : String) (a : ActivityDoc)
    (hf : find_one s n = some a) (he : e ∉ a.participants)
    (h : NoDupInv s) : NoDupInv (update_one_push s n e).1 := by
  induction s with
  | nil => simp [update_one_push, NoDupInv]
  | cons b rest ih =>
    by_cases hb : b.name = n
    · rw [find_one, if_pos hb] at hf
      obtain rfl := Option.some.inj hf
      intro x hx
      simp only [update_one_push, if_pos hb, List.mem_cons] at hx
      rcases hx with rfl | hx
      · have hbn : b.participants.Nodup := h b (List.mem_cons_self b rest)
        simp only [List.nodup_append, List.nodup_singleton, List.disjoint_singleton]
        exact ⟨hbn, trivial, he⟩
      · exact h x (List.mem_cons_of_mem _ hx)
    · rw [find_one, if_neg hb] at hf
      intro x hx
      simp only [update_one_push, if_neg hb, List.mem_cons] at hx
      rcases hx with rfl | hx
      · exact h x (List.mem_cons_self x rest)
      · exact ih hf (fun y hy => h y (List.mem_cons_of_mem _ hy)) x hx

theorem noDupInv_pull (s : Store) (n e : String)
    (h : NoDupInv s) : NoDupInv (update_one_pull s n e).1 := by
  induction s with
  | nil => simp [update_one_pull, NoDupInv]
  | cons b rest ih =>
    by_cases hb : b.name = n
    · intro x hx
      simp only [update_one_pull, if_pos hb, List.mem_cons] at hx
      rcases hx with rfl | hx
      · exact List.Nodup.filter _ (h b (List.mem_cons_self b rest))
      · exact h x (List.mem_cons_of_mem _ hx)
    · intro x hx
      simp only [update_one_pull, if_neg hb, List.mem_cons] at hx
      rcases hx with rfl | hx
      · exact h x (List.mem_cons_self x rest)
      · exact ih (fun y hy => h y (List.mem_cons_of_mem _ hy)) x hx

/-! ## Claim theorems -/

/-- Claim C1: for every activity in the store and every email not in its
participant list, sign-up succeeds, returns the confirmation naming the
email and the activity, and afterwards the email appears exactly once in
that activity's participant list (appended at the end). -/
theorem signup_absent_succeeds (s : Store) (n e : String) (a : ActivityDoc)
    (hf : find_one s n = some a) (he : e ∉ a.participants) :
    (signup_for_activity s n e).1 =
      Except.ok ("Signed up " ++ e ++ " for " ++ n) ∧
    ∃ a', find_one (signup_for_activity s n e).2 n = some a' ∧
      a'.participants = a.participants ++ [e] ∧
      a'.participants.count e = 1 := by
  have hp := push_spec s n e a hf
  simp only [signup_for_activity, hf, if_neg he]
  refine ⟨?_, ⟨{ a with participants := a.participants ++ [e] }, hp.2, rfl, ?_⟩⟩
  · simp [signup_commit, hp.1]
  · simp [List.count_append, List.count_eq_zero_of_not_mem he]

/-- Claim C1 witness: signing up a new email for Chess Club on the seed
data succeeds and the email appears exactly once. -/
theorem signup_absent_succeeds_witness :
    (signup_for_activity initialActivities "Chess Club" "new@mergington.edu").1 =
      Except.ok ("Signed up " ++ "new@mergington.edu" ++ " for " ++ "Chess Club") ∧
    ∃ a', find_one (signup_for_activity initialActivities "Chess Club"
        "new@mergington.edu").2 "Chess Club" = some a' ∧
      a'.participants =
        ["michael@mergington.edu", "daniel@mergington.edu"] ++ ["new@mergington.edu"] ∧
      a'.participants.count "new@mergington.edu" = 1 :=
  signup_absent_succeeds initialActivities "Chess Club" "new@mergington.edu"
    ⟨0, "Chess Club", "Learn strategies and compete in chess tournaments",
     "Fridays, 3:30 PM - 5:00 PM", 12,
     ["michael@mergington.edu", "daniel@mergington.edu"]⟩ (by decide) (by decide)

/-- Claim C3 counterexample: on a participant list holding the same email
twice, unregister removes BOTH occurrences (the embedded `$pull` removes
every matching element), not exactly the first one, so the remaining list
is empty rather than the one-element list the claim predicts. -/
theorem unregister_single_removal_cex :
    ((unregister_from_activity dupStore "Chess Club" "x@mergington.edu").2.map
        ActivityDoc.participants = [[]]) ∧
    ¬ ((unregister_from_activity dupStore "Chess Club" "x@mergington.edu").2.map
        ActivityDoc.participants = [["x@mergington.edu"]]) := by decide

/-- Claim C3 (amended): unregistering a present email succeeds and removes
every occurrence of that email from the activity's participant list,
leaving all other participants intact in their original order; on a list
satisfying the no-duplicates invariant this removes exactly the single
matching entry. -/
theorem unregister_removes_all_occurrences (s : Store) (n e : String)
    (a : ActivityDoc) (hf : find_one s n = some a) (he : e ∈ a.participants) :
    (unregister_from_activity s n e).1 =
      Except.ok ("Removed " ++ e ++ " from " ++ n) ∧
    ∃ a', find_one (unregister_from_activity s n e).2 n = some a' ∧
      a'.participants = a.participants.filter (fun p => p != e) ∧
      e ∉ a'.participants ∧
      (a.participants.Nodup → a'.participants = a.participants.erase e) := by
  have hp := pull_spec s n e a hf
  rw [if_pos he] at hp
  simp only [unregister_from_activity, hf, if_pos he]
  refine ⟨?_,
    ⟨{ a with participants := a.participants.filter (fun p => p != e) },
     hp.2, rfl, ?_, ?_⟩⟩
  · simp [unregister_commit, hp.1]
  · simp
  · intro hnd
    exact (hnd.erase_eq_filter e).symm

/-- Claim C3 witness: removing daniel from Chess Club on the seed data
leaves exactly michael. -/
theorem unregister_removes_all_occurrences_witness :
    (unregister_from_activity initialActivities "Chess Club"
        "daniel@mergington.edu").1 =
      Except.ok ("Removed " ++ "daniel@mergington.edu" ++ " from " ++ "Chess Club") ∧
    ∃ a', find_one (unregister_from_activity initialActivities "Chess Club"
        "daniel@mergington.edu").2 "Chess Club" = some a' ∧
      a'.participants = ["michael@mergington.edu", "daniel@mergington.edu"].filter
        (fun p => p != "daniel@mergington.edu") ∧
      "daniel@mergington.edu" ∉ a'.participants ∧
      (["michael@mergington.edu", "daniel@mergington.edu"].Nodup →
        a'.participants =
          ["michael@mergington.edu", "daniel@mergington.edu"].erase
            "daniel@mergington.edu") :=
  unregister_removes_all_occurrences initialActivities "Chess Club"
    "daniel@mergington.edu"
    ⟨0, "Chess Club", "Learn strategies and compete in chess tournaments",
     "Fridays, 3:30 PM - 5:00 PM", 12,
     ["michael@mergington.edu", "daniel@mergington.edu"]⟩ (by decide) (by decide)

/-- Claim C4: signing up an absent email and then unregistering it returns
the whole store, and in particular that activity's participant list, to
its exact prior state, content and order included. -/
theorem signup_unregister_roundtrip (s : Store) (n e : String) (a : ActivityDoc)
    (hf : find_one s n = some a) (he : e ∉ a.participants) :
    (unregister_from_activity (signup_for_activity s n e).2 n e).2 = s := by
  have hp := push_spec s n e a hf
  have h2 : (signup_for_activity s n e).2 = (update_one_push s n e).1 := by
    simp only [signup_for_activity, hf, if_neg he]
  rw [h2]
  have he₁ : e ∈ ({ a with participants := a.participants ++ [e] } :
      ActivityDoc).participants := by simp
  simp only [unregister_from_activity, hp.2, if_pos he₁]
  exact pull_push_cancel s n e a hf he

/-- Claim C4 witness: sign up then unregister a new email for Chess Club
on the seed data restores the seed store exactly. -/
theorem signup_unregister_roundtrip_witness :
    (unregister_from_activity
      (signup_for_activity initialActivities "Chess Club" "new@mergington.edu").2
      "Chess Club" "new@mergington.edu").2 = initialActivities :=
  signup_unregister_roundtrip initialActivities "Chess Club" "new@mergington.edu"
    ⟨0, "Chess Club", "Learn strategies and compete in chess tournaments",
     "Fridays, 3:30 PM - 5:00 PM", 12,
     ["michael@mergington.edu", "daniel@mergington.edu"]⟩ (by decide) (by decide)

/-- Claim C2: the no-duplicates invariant holds in every state reachable
from a state satisfying it: each of the three operations (list, sign up,
unregister) preserves it for every activity in the store. -/
theorem noDupInv_preserved (s : Store) (h : NoDupInv s) (op : Op) :
    NoDupInv (applyOp s op) := by
  cases op with
  | listing => exact h
  | signup n e =>
    simp only [applyOp]
    cases hf : find_one s n with
    | none => simpa [signup_for_activity, hf] using h
    | some a =>
      by_cases he : e ∈ a.participants
      · simpa [signup_for_activity, hf, he] using h
      · simpa [signup_for_activity, hf, he] using noDupInv_push s n e a hf he h
  | unregister n e =>
    simp only [applyOp]
    cases hf : find_one s n with
    | none => simpa [unregister_from_activity, hf] using h
    | some a =>
      by_cases he : e ∈ a.participants
      · simpa [unregister_from_activity, hf, he] using noDupInv_pull s n e h
      · simpa [unregister_from_activity, hf, he] using h

/-- Claim C2 witness: the seed data satisfies the invariant and still does
after a sign-up. -/
theorem noDupInv_preserved_witness :
    NoDupInv (applyOp initialActivities
      (Op.signup "Chess Club" "new@mergington.edu")) :=
  noDupInv_preserved initialActivities (by decide)
    (Op.signup "Chess Club" "new@mergington.edu")

/-- Claim C5: the listing's keys are exactly the activity names of the
store, each value carries the document's description, schedule,
max_participants and participants, and the output never depends on the
internal storage identifier. -/
theorem get_activities_projection (s : Store) :
    (get_activities s).map Prod.fst = s.map ActivityDoc.name ∧
    (∀ a ∈ s, (a.name, stripId a) ∈ get_activities s ∧
      (stripId a).description = a.description ∧
      (stripId a).schedule = a.schedule ∧
      (stripId a).max_participants = a.max_participants ∧
      (stripId a).participants = a.participants) ∧
    (∀ f : ActivityDoc → Nat,
      get_activities (s.map (fun a => { a with oid := f a })) =
        get_activities s) := by
  refine ⟨?_, ?_, ?_⟩
  · simp only [get_activities, List.map_map]
    rfl
  · intro a ha
    exact ⟨List.mem_map_of_mem _ ha, rfl, rfl, rfl, rfl⟩
  · intro f
    simp only [get_activities, List.map_map]
    rfl

/-- Claim C5 witness: on the seed data the listing's key sequence is the
sequence of activity names. -/
theorem get_activities_projection_witness :
    (get_activities initialActivities).map Prod.fst =
      initialActivities.map ActivityDoc.name :=
  (get_activities_projection initialActivities).1

/-- Claim C6: signing up an already-present email fails with the 400
already-signed-up error, unregistering an absent email fails with the 400
not-registered error (a distinct error), and in both cases the store is
returned unchanged. -/
theorem duplicate_signup_absent_unregister_rejected (s : Store) (n e : String)
    (a : ActivityDoc) (hf : find_one s n = some a) :
    (e ∈ a.participants →
      signup_for_activity s n e = (Except.error alreadySignedUp, s) ∧
      alreadySignedUp.status_code = 400) ∧
    (e ∉ a.participants →
      unregister_from_activity s n e = (Except.error notRegistered, s) ∧
      notRegistered.status_code = 400 ∧ notRegistered ≠ alreadySignedUp) := by
  constructor
  · intro he
    refine ⟨?_, rfl⟩
    simp [signup_for_activity, hf, he]
  · intro he
    refine ⟨?_, rfl, by decide⟩
    simp [unregister_from_activity, hf, he]

/-- Claim C6 witness: on the seed data, re-signing michael up for Chess
Club is rejected with the store unchanged, and unregistering an absent
email is rejected with the store unchanged. -/
theorem duplicate_signup_absent_unregister_rejected_witness :
    signup_for_activity initialActivities "Chess Club" "michael@mergington.edu" =
      (Except.error alreadySignedUp, initialActivities) ∧
    unregister_from_activity initialActivities "Chess Club" "new@mergington.edu" =
      (Except.error notRegistered, initialActivities) :=
  ⟨((duplicate_signup_absent_unregister_rejected initialActivities "Chess Club"
      "michael@mergington.edu"
      ⟨0, "Chess Club", "Learn strategies and compete in chess tournaments",
       "Fridays, 3:30 PM - 5:00 PM", 12,
       ["michael@mergington.edu", "daniel@mergington.edu"]⟩
      (by decide)).1 (by decide)).1,
   ((duplicate_signup_absent_unregister_rejected initialActivities "Chess Club"
      "new@mergington.edu"
      ⟨0, "Chess Club", "Learn strategies and compete in chess tournaments",
       "Fridays, 3:30 PM - 5:00 PM", 12,
       ["michael@mergington.edu", "daniel@mergington.edu"]⟩
      (by decide)).2 (by decide)).1⟩

/-- Claim C7: when no document matches the activity name, both sign-up and
unregister fail with the 404 not-found error and the store is returned
unchanged. -/
theorem missing_activity_not_found (s : Store) (n e : String)
    (hf : find_one s n = none) :
    signup_for_activity s n e = (Except.error activityNotFound, s) ∧
    unregister_from_activity s n e = (Except.error activityNotFound, s) ∧
    activityNotFound.status_code = 404 := by
  refine ⟨?_, ?_, rfl⟩
  · simp [signup_for_activity, hf]
  · simp [unregister_from_activity, hf]

/-- Claim C7 witness: a name absent from the seed data yields 404 on both
operations with the store unchanged. -/
theorem missing_activity_not_found_witness :
    signup_for_activity initialActivities "Knitting Club" "new@mergington.edu" =
      (Except.error activityNotFound, initialActivities) ∧
    unregister_from_activity initialActivities "Knitting Club"
      "new@mergington.edu" =
      (Except.error activityNotFound, initialActivities) ∧
    activityNotFound.status_code = 404 :=
  missing_activity_not_found initialActivities "Knitting Club"
    "new@mergington.edu" (by decide)

/-- Claim C8: once the existence and membership checks have passed, the
handler's answer is exactly the commit step applied to the modified count
the persisted update reported, and that step fails with the 500 error if
and only if the reported count is zero (the count for a single matched
document being at most one); the error is returned directly, without any
retry path. -/
theorem server_error_iff_zero_modified :
    (∀ (n e : String) (mc : Nat), mc ≤ 1 →
      ((signup_commit n e mc = Except.error signupFailed ↔ mc = 0) ∧
       (unregister_commit n e mc = Except.error removeFailed ↔ mc = 0) ∧
       signupFailed.status_code = 500 ∧ removeFailed.status_code = 500)) ∧
    (∀ (s : Store) (n e : String) (a : ActivityDoc), find_one s n = some a →
      e ∉ a.participants →
      (signup_for_activity s n e).1 =
        signup_commit n e (update_one_push s n e).2) ∧
    (∀ (s : Store) (n e : String) (a : ActivityDoc), find_one s n = some a →
      e ∈ a.participants →
      (unregister_from_activity s n e).1 =
        unregister_commit n e (update_one_pull s n e).2) := by
  refine ⟨?_, ?_, ?_⟩
  · intro n e mc hmc
    interval_cases mc
    · simp [signup_commit, unregister_commit, signupFailed, removeFailed]
    · simp [signup_commit, unregister_commit, signupFailed, removeFailed]
  · intro s n e a hf he
    simp [signup_for_activity, hf, he]
  · intro s n e a hf he
    simp [unregister_from_activity, hf, he]

/-- Claim C8 witness: a reported count of zero yields the 500 errors, and
on the seed data the sign-up answer is the commit step of the reported
count. -/
theorem server_error_iff_zero_modified_witness :
    (signup_commit "Chess Club" "x@mergington.edu" 0 =
      Except.error signupFailed) ∧
    (unregister_commit "Chess Club" "x@mergington.edu" 0 =
      Except.error removeFailed) ∧
    ((signup_for_activity initialActivities "Chess Club"
        "new@mergington.edu").1 =
      signup_commit "Chess Club" "new@mergington.edu"
        (update_one_push initialActivities "Chess Club"
          "new@mergington.edu").2) :=
  ⟨((server_error_iff_zero_modified.1 "Chess Club" "x@mergington.edu" 0
      (by decide)).1).mpr rfl,
   ((server_error_iff_zero_modified.1 "Chess Club" "x@mergington.edu" 0
      (by decide)).2.1).mpr rfl,
   server_error_iff_zero_modified.2.1 initialActivities "Chess Club"
     "new@mergington.edu"
     ⟨0, "Chess Club", "Learn strategies and compete in chess tournaments",
      "Fridays, 3:30 PM - 5:00 PM", 12,
      ["michael@mergington.edu", "daniel@mergington.edu"]⟩
     (by decide) (by decide)⟩

/-- Claim C9: capacity is never enforced: sign-up of an absent email
succeeds even when the participant list already holds `max_participants`
or more entries. -/
theorem capacity_not_enforced (s : Store) (n e : String) (a : ActivityDoc)
    (hf : find_one s n = some a) (he : e ∉ a.participants)
    (_hcap : a.max_participants ≤ a.participants.length) :
    (signup_for_activity s n e).1 =
      Except.ok ("Signed up " ++ e ++ " for " ++ n) := by
  have hp := push_spec s n e a hf
  simp [signup_for_activity, hf, he, signup_commit, hp.1]

/-- Claim C9 witness: an activity already at its capacity of 2 still
accepts a third sign-up. -/
theorem capacity_not_enforced_witness :
    (signup_for_activity fullStore "Chess Club" "c@mergington.edu").1 =
      Except.ok ("Signed up " ++ "c@mergington.edu" ++ " for " ++ "Chess Club") :=
  capacity_not_enforced fullStore "Chess Club" "c@mergington.edu"
    ⟨0, "Chess Club", "d", "sch", 2, ["a@mergington.edu", "b@mergington.edu"]⟩
    (by decide) (by decide) (by decide)

/-- Claim C10: sign-up and unregister touch at most the participants field
of the documents named by the request; every document keeps its name,
description, schedule, max_participants and storage identifier, and every
document with a different name is entirely unchanged. -/
theorem enrollment_frame (s : Store) (n e : String) :
    FrameOK n s (signup_for_activity s n e).2 ∧
    FrameOK n s (unregister_from_activity s n e).2 := by
  constructor
  · cases hf : find_one s n with
    | none => simpa [signup_for_activity, hf] using frameOK_refl n s
    | some a =>
      by_cases he : e ∈ a.participants
      · simpa [signup_for_activity, hf, he] using frameOK_refl n s
      · simpa [signup_for_activity, hf, he] using frameOK_push s n e
  · cases hf : find_one s n with
    | none => simpa [unregister_from_activity, hf] using frameOK_refl n s
    | some a =>
      by_cases he : e ∈ a.participants
      · simpa [unregister_from_activity, hf, he] using frameOK_pull s n e
      · simpa [unregister_from_activity, hf, he] using frameOK_refl n s

/-- Claim C10 witness: the frame relation holds for a sign-up on the seed
data. -/
theorem enrollment_frame_witness :
    FrameOK "Chess Club" initialActivities
      (signup_for_activity initialActivities "Chess Club"
        "new@mergington.edu").2 :=
  (enrollment_frame initialActivities "Chess Club" "new@mergington.edu").1
